import Mathlib

/-!
Verification of the autotest-backend worker (`server/autotest_server.py`).

The Python source is shallowly embedded: pure helpers become Lean functions,
calls into the operating system, Redis and the filesystem become explicit
state passing, and Python exceptions become `Except PyExc`.  Machine floats
(timestamps) are modelled as rationals.  Strings are modelled as `List Char`.
-/

namespace Autotest

/-- Python exception classes that the embedded code can raise or catch. -/
inductive PyExc where
  | JSONDecodeError
  | IndexError
  | AttributeError
  | TimeoutExpired
  | RecursionError
  | FileNotFoundError
  | OSError
  | TypeError
deriving DecidableEq

/-- The left curly brace character (written via its code point). -/
def lbrace : Char := Char.ofNat 123

/-- The right curly brace character (written via its code point). -/
def rbrace : Char := Char.ofNat 125

/-- JSON values as produced by Python's `json` decoder: objects decode to
dicts, arrays to lists, strings, integers, booleans and null. -/
inductive JVal where
  | null : JVal
  | bool : Bool → JVal
  | num : Int → JVal
  | str : List Char → JVal
  | arr : List JVal → JVal
  | obj : List (List Char × JVal) → JVal

/-- JSON whitespace, which is also exactly what Python's `str.strip` removes
for the characters appearing in JSON text. -/
def isWS (c : Char) : Bool :=
  c == ' ' || c == '\t' || c == '\n' || c == '\r'

/-- Number of leading whitespace characters of a string. -/
def skipWS : List Char → Nat
  | [] => 0
  | c :: cs => if isWS c then skipWS cs + 1 else 0

/-- The longest prefix made of decimal digits. -/
def leadingDigits : List Char → List Char
  | [] => []
  | c :: cs => if c.isDigit then c :: leadingDigits cs else []

/-- Numeric value of a digit string. -/
def digitsToNat (ds : List Char) : Nat :=
  ds.foldl (fun acc c => acc * 10 + (c.toNat - 48)) 0

/-- Scan a JSON string body after the opening quote.  Returns the decoded
characters and the number of input characters consumed (including the
closing quote).  Escape sequences are outside the modelled subset. -/
def parseStringBody : List Char → Option (List Char × Nat)
  | [] => none
  | c :: cs =>
    if c == '"' then some ([], 1)
    else if c == '\\' then none
    else
      match parseStringBody cs with
      | some (s, n) => some (c :: s, n + 1)
      | none => none

mutual

/-- Models `json.JSONDecoder().raw_decode` from Python's standard library
(called by `loads_partial_json`): decode one JSON value that must start at
the very first character of the input (leading whitespace is not skipped and
causes a decode error, exactly as in CPython), returning the value together
with the number of characters consumed.  The modelled subset covers objects,
arrays, escape-free strings, integers, booleans and null; `fuel` bounds the
nesting depth and is instantiated generously by `rawDecode`. -/
def parseVal : Nat → List Char → Option (JVal × Nat)
  | 0, _ => none
  | _ + 1, [] => none
  | fuel + 1, c :: cs =>
    if c == 'n' then
      if cs.take 3 == ['u', 'l', 'l'] then some (.null, 4) else none
    else if c == 't' then
      if cs.take 3 == ['r', 'u', 'e'] then some (.bool true, 4) else none
    else if c == 'f' then
      if cs.take 4 == ['a', 'l', 's', 'e'] then some (.bool false, 5) else none
    else if c == '"' then
      match parseStringBody cs with
      | some (s, n) => some (.str s, n + 1)
      | none => none
    else if c == '-' then
      match leadingDigits cs with
      | [] => none
      | d :: ds => some (.num (-(Int.ofNat (digitsToNat (d :: ds)))), (d :: ds).length + 1)
    else if c.isDigit then
      some (.num (Int.ofNat (digitsToNat (c :: leadingDigits cs))), (leadingDigits cs).length + 1)
    else if c == '[' then
      match parseArrTail fuel cs with
      | some (vs, n) => some (.arr vs, n + 1)
      | none => none
    else if c == lbrace then
      match parseObjTail fuel cs with
      | some (ms, n) => some (.obj ms, n + 1)
      | none => none
    else none

/-- Array contents directly after the opening bracket: either the closing
bracket, or a first element followed by `parseArrRest`. -/
def parseArrTail : Nat → List Char → Option (List JVal × Nat)
  | 0, _ => none
  | fuel + 1, s =>
    let w := skipWS s
    match s.drop w with
    | ']' :: _ => some ([], w + 1)
    | rest =>
      match parseVal fuel rest with
      | some (v, n) =>
        match parseArrRest fuel (rest.drop n) with
        | some (vs, m) => some (v :: vs, w + n + m)
        | none => none
      | none => none

/-- Array contents after a complete element: a comma and another element, or
the closing bracket. -/
def parseArrRest : Nat → List Char → Option (List JVal × Nat)
  | 0, _ => none
  | fuel + 1, s =>
    let w := skipWS s
    match s.drop w with
    | ']' :: _ => some ([], w + 1)
    | ',' :: rest =>
      let w2 := skipWS rest
      match parseVal fuel (rest.drop w2) with
      | some (v, n) =>
        match parseArrRest fuel ((rest.drop w2).drop n) with
        | some (vs, m) => some (v :: vs, w + 1 + w2 + n + m)
        | none => none
      | none => none
    | _ => none

/-- Object contents directly after the opening brace: either the closing
brace, or a quoted key followed by `parseMember` and `parseObjRest`. -/
def parseObjTail : Nat → List Char → Option (List (List Char × JVal) × Nat)
  | 0, _ => none
  | fuel + 1, s =>
    let w := skipWS s
    match s.drop w with
    | [] => none
    | c :: rest =>
      if c == rbrace then some ([], w + 1)
      else if c == '"' then
        match parseStringBody rest with
        | some (key, kn) =>
          match parseMember fuel (rest.drop kn) with
          | some (v, n) =>
            match parseObjRest fuel ((rest.drop kn).drop n) with
            | some (ms, m) => some ((key, v) :: ms, w + 1 + kn + n + m)
            | none => none
          | none => none
        | none => none
      else none

/-- The colon and value part of one object member. -/
def parseMember : Nat → List Char → Option (JVal × Nat)
  | 0, _ => none
  | fuel + 1, s =>
    let w := skipWS s
    match s.drop w with
    | ':' :: rest =>
      let w2 := skipWS rest
      match parseVal fuel (rest.drop w2) with
      | some (v, n) => some (v, w + 1 + w2 + n)
      | none => none
    | _ => none

/-- Object contents after a complete member: a comma and another member, or
the closing brace. -/
def parseObjRest : Nat → List Char → Option (List (List Char × JVal) × Nat)
  | 0, _ => none
  | fuel + 1, s =>
    let w := skipWS s
    match s.drop w with
    | [] => none
    | c :: rest =>
      if c == rbrace then some ([], w + 1)
      else if c == ',' then
        let w2 := skipWS rest
        match rest.drop w2 with
        | [] => none
        | q :: rest2 =>
          if q == '"' then
            match parseStringBody rest2 with
            | some (key, kn) =>
              match parseMember fuel (rest2.drop kn) with
              | some (v, n) =>
                match parseObjRest fuel ((rest2.drop kn).drop n) with
                | some (ms, m) => some ((key, v) :: ms, w + 1 + w2 + 1 + kn + n + m)
                | none => none
              | none => none
            | none => none
          else none
      else none

end

/-- One decoding attempt of `json.JSONDecoder().raw_decode` on a string,
with nesting fuel ample for the input length (each nesting level consumes at
least one input character, and the scan spends at most two fuel units per
consumed character). -/
def rawDecode (s : List Char) : Option (JVal × Nat) :=
  parseVal (2 * s.length + 4) s

/-- A successful decode always consumes at least one character: every JSON
value contains at least one non-whitespace character. -/
theorem parseVal_pos : ∀ (fuel : Nat) (s : List Char) (v : JVal) (n : Nat),
    parseVal fuel s = some (v, n) → 1 ≤ n := by
  intro fuel s v n h
  match fuel, s with
  | 0, s => simp [parseVal] at h
  | fuel + 1, [] => simp [parseVal] at h
  | fuel + 1, c :: cs =>
    simp only [parseVal] at h
    repeat' split at h
    all_goals first
      | (injection h with h1; injection h1 with h2 h3; omega)
      | exact Option.noConfusion h

/-- The consumed-count lower bound, restated for `rawDecode`. -/
theorem rawDecode_pos {s : List Char} {v : JVal} {n : Nat}
    (h : rawDecode s = some (v, n)) : 1 ≤ n := by
  unfold rawDecode at h
  exact parseVal_pos _ _ _ _ h

/-- Python types usable as the `expected_type` argument of
`loads_partial_json`; the source only ever passes `dict`. -/
inductive PyType where
  | dict
deriving DecidableEq

/-- Models Python's `isinstance(obj, expected_type)` on decoded JSON values:
only JSON objects decode to `dict`. -/
def isinstance (v : JVal) (t : PyType) : Bool :=
  match v, t with
  | .obj _, .dict => true
  | _, _ => false

/-- The `while i < len(json_string)` loop of `loads_partial_json`
(`server/autotest_server.py` lines 99-110), with the loop state (`i`,
`results`, `malformed`) passed explicitly.  A successful `raw_decode`
appends the object when `expected_type is None or isinstance(...)` holds,
then sets `malformed` when the consumed slice `json_string[i:i+ind]` strips
to something non-empty, then advances by `ind`; a `JSONDecodeError` sets
`malformed` when the single character `json_string[i]` strips to something
non-empty, then advances by one.  The character access is modelled with a
bounds check so that an out-of-range index would surface as `IndexError`
rather than being silently absorbed; `fuel` counts remaining loop
iterations, and exhausting it surfaces as `RecursionError` (proved
unreachable below, since each iteration advances `i` by at least one). -/
def loadsLoopE (json_string : List Char) (expected_type : Option PyType) :
    Nat → Nat → List JVal → Bool → Except PyExc (List JVal × Bool)
  | 0, _, _, _ => .error .RecursionError
  | fuel + 1, i, results, malformed =>
    if i < json_string.length then
      match rawDecode (json_string.drop i) with
      | some (obj, ind) =>
        let results' :=
          if (match expected_type with
              | none => true
              | some t => isinstance obj t) then results ++ [obj] else results
        let malformed' :=
          if ((json_string.drop i).take ind).any (fun c => !isWS c) then true
          else malformed
        loadsLoopE json_string expected_type fuel (i + ind) results' malformed'
      | none =>
        match json_string[i]? with
        | some c =>
          loadsLoopE json_string expected_type fuel (i + 1) results
            (if !isWS c then true else malformed)
        | none => .error .IndexError
    else .ok (results, malformed)

/-- The function `loads_partial_json(json_string, expected_type=None)`
(`server/autotest_server.py` lines 85-111): best-effort decoding of a
sequence of JSON values out of a possibly malformed string, returning the
collected values and a malformed flag. -/
def loads_partial_json (json_string : List Char) (expected_type : Option PyType) :
    Except PyExc (List JVal × Bool) :=
  loadsLoopE json_string expected_type (json_string.length + 1) 0 [] false

/-- The scan loop returns normally whenever the iteration fuel exceeds the
number of unread characters: each iteration advances the position by at
least one, and the in-bounds character access never fails. -/
theorem loadsLoopE_ok (js : List Char) (et : Option PyType) :
    ∀ (fuel i : Nat) (acc : List JVal) (m : Bool), js.length - i < fuel →
      ∃ p, loadsLoopE js et fuel i acc m = Except.ok p := by
  intro fuel
  induction fuel with
  | zero => intro i acc m h; omega
  | succ fuel ih =>
    intro i acc m h
    by_cases hi : i < js.length
    · rw [loadsLoopE, if_pos hi]
      cases hdec : rawDecode (js.drop i) with
      | some pr =>
        obtain ⟨obj, ind⟩ := pr
        have hpos : 1 ≤ ind := rawDecode_pos hdec
        exact ih (i + ind) _ _ (by omega)
      | none =>
        have hg : js[i]? = some js[i] := List.getElem?_eq_getElem hi
        rw [hg]
        exact ih (i + 1) _ _ (by omega)
    · rw [loadsLoopE, if_neg hi]
      exact ⟨(acc, m), rfl⟩

/-- Values collected by the scan loop under a type filter all satisfy that
filter, provided the accumulator already does: `results.append(obj)` is
guarded by the `isinstance` test. -/
theorem loadsLoopE_types (js : List Char) (t : PyType) :
    ∀ (fuel i : Nat) (acc : List JVal) (m : Bool) (res : List JVal) (mal : Bool),
      (∀ x ∈ acc, isinstance x t = true) →
      loadsLoopE js (some t) fuel i acc m = Except.ok (res, mal) →
      ∀ x ∈ res, isinstance x t = true := by
  intro fuel
  induction fuel with
  | zero => intro i acc m res mal _ h; exact absurd h (by simp [loadsLoopE])
  | succ fuel ih =>
    intro i acc m res mal hacc h
    rw [loadsLoopE] at h
    by_cases hi : i < js.length
    · rw [if_pos hi] at h
      cases hdec : rawDecode (js.drop i) with
      | some pr =>
        obtain ⟨obj, ind⟩ := pr
        rw [hdec] at h
        simp only at h
        by_cases hty : isinstance obj t = true
        · rw [if_pos (by simpa using hty)] at h
          refine ih (i + ind) (acc ++ [obj]) _ res mal ?_ h
          intro x hx
          rcases List.mem_append.mp hx with hx | hx
          · exact hacc x hx
          · rcases List.mem_singleton.mp hx with rfl
            exact hty
        · rw [if_neg (by simpa using hty)] at h
          exact ih (i + ind) acc _ res mal hacc h
      | none =>
        rw [hdec] at h
        cases hg : js[i]? with
        | some c =>
          rw [hg] at h
          exact ih (i + 1) acc _ res mal hacc h
        | none => rw [hg] at h; exact absurd h (by simp)
    · rw [if_neg hi] at h
      obtain ⟨rfl, rfl⟩ : acc = res ∧ m = mal := by
        simpa using h
      exact hacc

/-- The dictionary built by `create_test_script_result`
(`server/autotest_server.py` lines 287-298), one per executed script. -/
structure TestScriptResult where
  file_name : List Char
  time : Nat
  timeout : Option Nat
  tests : List JVal
  stderr : Option (List Char)
  malformed : Option (List Char)

/-- The function `create_test_script_result(file_name, stdout, stderr,
run_time, timeout=None)` (lines 287-298): decode `stdout` with
`loads_partial_json(stdout, dict)`, normalise falsy `stderr` to `None`, and
store the whole raw `stdout` under `malformed` exactly when the decode
flagged it. -/
def create_test_script_result (file_name stdout stderr : List Char)
    (run_time : Nat) (timeout : Option Nat) : Except PyExc TestScriptResult :=
  match loads_partial_json stdout (some .dict) with
  | .error e => .error e
  | .ok (test_results, malformed) =>
    .ok { file_name := file_name
          time := run_time
          timeout := timeout
          tests := test_results
          stderr := if stderr.isEmpty then none else some stderr
          malformed := if malformed then some stdout else none }

/-- Observable behaviour of the subprocess a script starts: how long it
would run and what it writes on the two output streams. -/
structure ProcBehavior where
  duration : Nat
  out : List Char
  err : List Char

/-- How one script behaves when `run_test_scripts` reaches it: either
`subprocess.Popen` succeeds and the process behaves as `b`, or `Popen`
itself raises. -/
inductive ScriptBehavior where
  | runs (b : ProcBehavior)
  | popenRaises (e : PyExc)

/-- Models `proc.communicate(timeout=...)`: with `timeout=None` it waits
for however long the process runs and returns its output; with a numeric
timeout it raises `TimeoutExpired` when the process outlives the bound. -/
def communicate (b : ProcBehavior) (timeout : Option Nat) :
    Except PyExc (List Char × List Char) :=
  match timeout with
  | none => .ok (b.out, b.err)
  | some t => if t < b.duration then .error .TimeoutExpired else .ok (b.out, b.err)

/-- Models the attribute access `e.message` on a caught exception.  Python 3
exceptions define no `message` attribute, so the access itself raises
`AttributeError` regardless of the exception caught. -/
def exc_message (_e : PyExc) : Except PyExc (List Char) :=
  .error .AttributeError

/-- The `except Exception as e` handler of `run_test_scripts` (line 321-322)
followed by the `finally` block: it tries to extend `err` with
`e.message`, and the `finally` block then builds the script's result.  When
the attribute lookup itself raises, the new exception propagates out of the
handler (the result appended inside `finally` is lost with the frame). -/
def exceptHandler (file_name out err : List Char) (dur : Nat)
    (timeout : Option Nat) (e : PyExc) : Except PyExc TestScriptResult :=
  match exc_message e with
  | .ok m => create_test_script_result file_name out (err ++ '\n' :: '\n' :: m) dur timeout
  | .error e2 => .error e2

/-- Externally visible events of a run; `killpg` records the forceful kill
of a script's whole process group. -/
inductive RunEvent where
  | killpg (file_name : List Char)
deriving DecidableEq

/-- One iteration of the `for file_name, timeout in test_scripts.items()`
loop of `run_test_scripts` (lines 306-325).  The binding
`let timeout : Option Nat := none` is the source's line 309 `timeout =
None`, which overwrites the configured per-script timeout bound by the loop
variable, so `communicate` always receives `None`; in the (therefore
unreachable) `TimeoutExpired` branch, the source's line 320 reads `timeout =
timeout`, a self-assignment, so the result would still record `None`. -/
def runOneScript (behave : List Char → ScriptBehavior)
    (file_name : List Char) (timeout : Option Nat) :
    Except PyExc TestScriptResult × List RunEvent :=
  let timeout : Option Nat := none
  match behave file_name with
  | .popenRaises e => (exceptHandler file_name [] [] 0 timeout e, [])
  | .runs b =>
    match communicate b timeout with
    | .ok (o, er) => (create_test_script_result file_name o er b.duration timeout, [])
    | .error .TimeoutExpired =>
      (create_test_script_result file_name b.out b.err b.duration timeout,
       [.killpg file_name])
    | .error e => (exceptHandler file_name [] [] b.duration timeout e, [])

/-- The function `run_test_scripts(cmd, test_scripts, tests_path)` (lines
300-326): run the configured scripts in order, collecting one result per
script; an exception escaping one iteration propagates out of the whole
function, so no list is returned and the remaining scripts never run.  The
second component traces the kill events issued. -/
def run_test_scripts (behave : List Char → ScriptBehavior) :
    List (List Char × Option Nat) → Except PyExc (List TestScriptResult) × List RunEvent
  | [] => (.ok [], [])
  | (file_name, timeout) :: rest =>
    match runOneScript behave file_name timeout with
    | (.ok r, evs) =>
      match run_test_scripts behave rest with
      | (.ok rs, evs2) => (.ok (r :: rs), evs ++ evs2)
      | (.error e, evs2) => (.error e, evs ++ evs2)
    | (.error e, evs) => (.error e, evs)

/-- Kernel state for `fd_open`: the next descriptor number `os.open` would
hand out, and the descriptors currently open. -/
structure FdState where
  nextFd : Nat
  openFds : List Nat
deriving DecidableEq

/-- The generator context manager `fd_open` (`server/autotest_server.py`
lines 113-122): `fd = os.open(...)`, `yield fd`, `os.close(fd)` — with no
`try/finally` around the `yield`.  Under `@contextmanager` semantics an
exception in the `with` body is thrown into the generator at the `yield`
point; since the generator does not catch it, the code after the `yield`
never runs, so on the error path the descriptor stays open. -/
def fd_open {E A : Type} (st : FdState) (body : Nat → Except E A) :
    Except E A × FdState :=
  let fd := st.nextFd
  let st1 : FdState := ⟨st.nextFd + 1, fd :: st.openFds⟩
  match body fd with
  | .ok a => (.ok a, ⟨st1.nextFd, st1.openFds.erase fd⟩)
  | .error e => (.error e, st1)

/-- The generator context manager `fd_lock` (lines 124-133): `flock(...)`,
`yield`, `flock(LOCK_UN)` — again with no `try/finally`, so the unlock after
the `yield` is skipped when the body raises.  The boolean returned alongside
the outcome says whether the lock is still held on exit. -/
def fd_lock {E A : Type} (body : Except E A) : Except E A × Bool :=
  match body with
  | .ok a => (.ok a, false)
  | .error e => (.error e, true)

/-- The context manager `tester_user` (lines 135-147): `blpop` one user
blob off the shared list (blocking while the list is empty, modelled as
`none`), run the body on it, and `rpush` the very same blob back inside a
`finally`, so the push happens on the error path too. -/
def tester_user {U E A : Type} (queue : List U) (body : U → Except E A) :
    Option (Except E A × List U) :=
  match queue with
  | [] => none
  | user_data :: rest => some (body user_data, rest ++ [user_data])

/-- A sequence of `tester_user` acquisitions run back to back, each body
free to succeed or raise; returns the final pool contents. -/
def runAll {U E A : Type} (bodies : List (U → Except E A)) (queue : List U) :
    Option (List U) :=
  match bodies with
  | [] => some queue
  | body :: rest =>
    match tester_user queue body with
    | some (_, q2) => runAll rest q2
    | none => none

/-- The three fields the pop-statistics Redis hash holds for one queue:
`<queue>_start`, `<queue>_last` and `<queue>_count`.  Timestamps are
rationals standing in for `time.time()` floats; a missing field is `none`
(Redis `hget` returning `None`). -/
structure PopHash where
  start : Option ℚ
  last : Option ℚ
  count : Option Int
deriving DecidableEq

/-- The hash before any pop was ever recorded. -/
def emptyPopHash : PopHash := ⟨none, none, none⟩

/-- The function `update_pop_interval_stat` (lines 151-162): `hsetnx` the
burst start (only set when absent), `hset` the last-pop time, `hincrby` the
counter (a missing counter counts as zero). -/
def update_pop_interval_stat (h : PopHash) (now : ℚ) : PopHash :=
  { start := match h.start with | none => some now | some s => some s
    last := some now
    count := some (h.count.getD 0 + 1) }

/-- The function `clear_pop_interval_stat` (lines 164-173): `hdel` the
start, `hset` last and count to zero. -/
def clear_pop_interval_stat (_h : PopHash) : PopHash :=
  { start := none, last := some 0, count := some 0 }

/-- The function `get_pop_interval_stat` (lines 175-189).  Note the source:
both its second and its third `hget` read the `'{...}_count'` key (lines
187-188), so the value returned in the `last` position is the pop counter,
not the `<queue>_last` timestamp the docstring promises. -/
def get_pop_interval_stat (h : PopHash) : Option ℚ × Option Int × Option Int :=
  (h.start, h.count, h.count)

/-- The function `get_avg_pop_interval` (lines 191-206): convert the three
fetched fields (`float(start)`, `float(last)`, `int(count)`; a `None` in
any of them raises `TypeError`, caught to return `None`), then return
`(last-start)/count` after `count -= 1`, or `0` when the decremented count
is zero. -/
def get_avg_pop_interval (h : PopHash) : Option ℚ :=
  match get_pop_interval_stat h with
  | (some start, some last, some count) =>
    let count2 := count - 1
    if count2 ≠ 0 then some (((last : ℚ) - start) / (count2 : ℚ)) else some 0
  | _ => none

/-- The hash after recording one pop per listed timestamp, oldest first. -/
def afterPops (ts : List ℚ) : PopHash :=
  ts.foldl update_pop_interval_stat emptyPopHash

/-- State seen by `update_test_scripts` for one (service, assignment) key:
the Redis pointer to the current script directory, and the directories that
exist on disk.  A filesystem holds each path at most once, so removal is
modelled by filtering the path out. -/
structure VersionState where
  pointer : Option String
  dirs : List String
deriving DecidableEq

/-- Externally visible steps of `update_test_scripts`, in execution order. -/
inductive UpdateEvent where
  | copyTree (dst : String)
  | setPointer (p : String)
  | lockExclusive (p : String)
  | removeTree (p : String)
deriving DecidableEq

/-- The callback `_ignore_missing_dir_error` (lines 403-408) passed to
`shutil.rmtree` as `onerror`: swallow a `FileNotFoundError`, re-raise
anything else. -/
def _ignore_missing_dir_error (e : PyExc) : Except PyExc Unit :=
  if e = PyExc.FileNotFoundError then .ok () else .error e

/-- Plain `shutil.rmtree` on the modelled filesystem: remove the directory,
or fail with `FileNotFoundError` if it does not exist. -/
def rmtree_raw (dirs : List String) (p : String) : Except PyExc (List String) :=
  if p ∈ dirs then .ok (dirs.filter (fun d => d ≠ p)) else .error .FileNotFoundError

/-- The call `shutil.rmtree(old_test_script_dir,
onerror=_ignore_missing_dir_error)` (line 428): every error raised during
removal is routed through the handler, so a missing directory leaves the
filesystem unchanged and raises nothing. -/
def rmtree_onerror_ignore_missing (dirs : List String) (p : String) :
    Except PyExc (List String) :=
  match rmtree_raw dirs p with
  | .ok d => .ok d
  | .error e =>
    match _ignore_missing_dir_error e with
    | .ok _ => .ok dirs
    | .error e2 => .error e2

/-- Models `os.open(path, O_RDONLY)` on a directory path: succeeds exactly
when the directory exists. -/
def os_open_dir (dirs : List String) (p : String) : Except PyExc Unit :=
  if p ∈ dirs then .ok () else .error .FileNotFoundError

/-- The job `update_test_scripts(files_path, assignment_id, markus_address)`
(lines 410-428), with the freshly time-stamped directory name passed in as
`new_dir`.  In source order: `_copy_tree` into the new directory, read the
old pointer, `_test_script_directory(..., set_to=new_dir)` to swap the
pointer, then `fd_open` the old directory, take an exclusive `fd_lock` on
it, and `shutil.rmtree` it with the missing-directory-tolerant handler.
The event list records the order in which those steps happen. -/
def update_test_scripts (st : VersionState) (new_dir : String) :
    Except PyExc VersionState × List UpdateEvent :=
  let dirs1 := new_dir :: st.dirs
  let evs1 := [UpdateEvent.copyTree new_dir]
  match st.pointer with
  | none => (.error .TypeError, evs1)
  | some old_dir =>
    let evs2 := evs1 ++ [UpdateEvent.setPointer new_dir]
    match os_open_dir dirs1 old_dir with
    | .error e => (.error e, evs2)
    | .ok _ =>
      let evs3 := evs2 ++ [UpdateEvent.lockExclusive old_dir]
      match rmtree_onerror_ignore_missing dirs1 old_dir with
      | .ok dirs2 => (.ok ⟨some new_dir, dirs2⟩, evs3 ++ [UpdateEvent.removeTree old_dir])
      | .error e => (.error e, evs3)

/-- C1 (counter-evaluation): a script configured with a 5-unit timeout whose
process would run for 10 units is never interrupted by `run_test_scripts` —
no process-group kill is issued and the produced result records `timeout =
none` instead of the configured value.  Line 309 of the source rebinds the
loop variable `timeout` (which held the configured per-script value) to
`None` before the process starts, so `communicate` waits indefinitely and
the `TimeoutExpired` branch that would kill the process group is
unreachable. -/
theorem C1_configured_timeout_ignored :
    run_test_scripts (fun _ => ScriptBehavior.runs ⟨10, [], []⟩) [(['s'], some 5)]
      = (Except.ok [{ file_name := ['s'], time := 10, timeout := none,
                      tests := [], stderr := none, malformed := none }], [])
    ∧ (5 : Nat) < 10 :=
  ⟨rfl, by norm_num⟩

/-- C2 (counter-evaluation): on the two-character input holding one valid
empty JSON object literal, `loads_partial_json` returns that object but
reports `malformed = true`, where the claim requires `malformed = false`.
Line 104 tests `json_string[i:i+ind].strip()` as an independent `if` after
every successful decode, and the consumed slice of any decoded value is
never blank, so every non-empty well-formed input is flagged. -/
theorem C2_valid_object_flagged_malformed :
    loads_partial_json [lbrace, rbrace] none = Except.ok ([JVal.obj []], true) := rfl

/-- C3 (counter-evaluation): when the first of two scripts fails to start,
`run_test_scripts` does not capture the failure in that script's stderr and
run the second script — the handler's `e.message` attribute access raises
`AttributeError` (Python 3 exceptions define no such attribute), which
propagates out of the whole function, so no result list is produced at all;
the same second script on its own would have produced a result. -/
theorem C3_execution_error_aborts_batch :
    run_test_scripts
        (fun fn => if fn = ['b'] then ScriptBehavior.popenRaises PyExc.OSError
                   else ScriptBehavior.runs ⟨1, [], []⟩)
        [(['b'], none), (['g'], none)]
      = (Except.error PyExc.AttributeError, [])
    ∧ run_test_scripts
        (fun fn => if fn = ['b'] then ScriptBehavior.popenRaises PyExc.OSError
                   else ScriptBehavior.runs ⟨1, [], []⟩)
        [(['g'], none)]
      = (Except.ok [{ file_name := ['g'], time := 1, timeout := none,
                      tests := [], stderr := none, malformed := none }], []) :=
  ⟨rfl, rfl⟩

/-- C4 (counter-evaluation): after pops recorded at times 0, 2 and 5,
`get_avg_pop_interval` returns `(3 - 0) / (3 - 1) = 3/2` instead of the
claimed `(5 - 0) / (3 - 1) = 5/2`, because `get_pop_interval_stat` reads
the `_count` hash key in the position where its docstring promises the
last-pop timestamp. -/
theorem C4_avg_pop_interval_uses_count_as_last :
    get_avg_pop_interval (afterPops [0, 2, 5]) = some (3 / 2)
    ∧ (3 / 2 : ℚ) ≠ (5 - 0) / (3 - 1) := by
  constructor
  · simp only [afterPops, emptyPopHash, List.foldl, update_pop_interval_stat,
      get_avg_pop_interval, get_pop_interval_stat, Option.getD]
    norm_num
  · norm_num

/-- C5: the pool of tester identities is conserved: starting from any
non-empty pool, any sequence of `tester_user` borrowings — each body free to
succeed or raise — completes and leaves the pool with exactly its starting
number of identities, because the blob is pushed back inside a `finally`. -/
theorem C5_tester_user_pool_conserved {U E A : Type}
    (bodies : List (U → Except E A)) (queue : List U) (h : queue ≠ []) :
    ∃ q2, runAll bodies queue = some q2 ∧ q2.length = queue.length := by
  induction bodies generalizing queue with
  | nil => exact ⟨queue, rfl, rfl⟩
  | cons body rest ih =>
    match queue, h with
    | u :: qrest, _ =>
      obtain ⟨q2, hq, hl⟩ := ih (qrest ++ [u]) (by simp)
      refine ⟨q2, ?_, ?_⟩
      · simpa [runAll, tester_user] using hq
      · simp only [List.length_append, List.length_cons, List.length_nil] at hl ⊢
        omega

/-- Witness for C5: one borrowing whose body raises, on a one-element pool,
returns the pool to length one. -/
theorem C5_tester_user_pool_conserved_witness :
    ∃ q2, runAll [fun _ => (Except.error () : Except Unit Unit)] [(0 : Nat)] = some q2
      ∧ q2.length = [(0 : Nat)].length :=
  C5_tester_user_pool_conserved [fun _ => (Except.error () : Except Unit Unit)]
    [(0 : Nat)] (by simp)

/-- C6 (counter-evaluation): `fd_open` and `fd_lock` have no `try/finally`
around their `yield`, so when the body raises, the descriptor stays open and
the advisory lock stays held; only the normal exit path releases them.  The
claim requires release on every exit path including exceptions. -/
theorem C6_fd_resources_leak_on_exception :
    (fd_open ⟨0, []⟩ (fun _ => (Except.error () : Except Unit Unit))).2.openFds = [0]
    ∧ (fd_open ⟨0, []⟩ (fun _ => (Except.ok () : Except Unit Unit))).2.openFds = []
    ∧ (fd_lock (Except.error () : Except Unit Unit)).2 = true
    ∧ (fd_lock (Except.ok () : Except Unit Unit)).2 = false :=
  ⟨rfl, rfl, rfl, rfl⟩

/-- C7: in every execution of `update_test_scripts` reaching the deletion
(pointer set to an existing old directory distinct from the new one), the
pointer swap happens strictly before the exclusive lock on the old
directory, which happens strictly before its deletion; afterwards the
pointer reads as the new directory — never again the deleted path, which is
gone from the filesystem. -/
theorem C7_pointer_swapped_before_delete (st : VersionState)
    (new_dir old_dir : String) (hp : st.pointer = some old_dir)
    (hd : old_dir ∈ st.dirs) (hne : old_dir ≠ new_dir) :
    ∃ st2,
      update_test_scripts st new_dir =
        (Except.ok st2,
         [UpdateEvent.copyTree new_dir, UpdateEvent.setPointer new_dir,
          UpdateEvent.lockExclusive old_dir, UpdateEvent.removeTree old_dir])
      ∧ st2.pointer = some new_dir
      ∧ st2.pointer ≠ some old_dir
      ∧ old_dir ∉ st2.dirs := by
  have hmem : old_dir ∈ new_dir :: st.dirs := List.mem_cons_of_mem _ hd
  refine ⟨⟨some new_dir, (new_dir :: st.dirs).filter (fun d => d ≠ old_dir)⟩,
    ?_, rfl, ?_, ?_⟩
  · simp only [update_test_scripts, hp, os_open_dir,
      rmtree_onerror_ignore_missing, rmtree_raw, if_pos hmem]
    simp
  · intro hcon
    exact hne (Option.some.inj hcon).symm
  · simp [List.mem_filter]

/-- Witness for C7: a store pointing at an existing directory, updated to a
fresh one, yields the swap-lock-delete order and the swapped pointer. -/
theorem C7_pointer_swapped_before_delete_witness :
    ∃ st2,
      update_test_scripts ⟨some "old", ["old"]⟩ "new" =
        (Except.ok st2,
         [UpdateEvent.copyTree "new", UpdateEvent.setPointer "new",
          UpdateEvent.lockExclusive "old", UpdateEvent.removeTree "old"])
      ∧ st2.pointer = some "new"
      ∧ st2.pointer ≠ some "old"
      ∧ "old" ∉ st2.dirs :=
  C7_pointer_swapped_before_delete ⟨some "old", ["old"]⟩ "new" "old" rfl
    (by simp) (by decide)

/-- C8: the deletion step of `update_test_scripts` is idempotent: removing
the superseded directory through the `_ignore_missing_dir_error` handler
completes without raising and leaves the filesystem unchanged when the
directory is already absent. -/
theorem C8_rmtree_missing_dir_ok (dirs : List String) (p : String)
    (h : p ∉ dirs) : rmtree_onerror_ignore_missing dirs p = Except.ok dirs := by
  simp [rmtree_onerror_ignore_missing, rmtree_raw, _ignore_missing_dir_error, h]

/-- Witness for C8: deleting a directory absent from an empty filesystem
succeeds. -/
theorem C8_rmtree_missing_dir_ok_witness :
    rmtree_onerror_ignore_missing [] "x" = Except.ok [] :=
  C8_rmtree_missing_dir_ok [] "x" (by simp)

/-- C9: `loads_partial_json` is total on string input: for every input
string and either expected-type argument, it raises no exception and
returns a list of decoded values together with a malformed flag — every
decode failure is caught, the per-character fallback access is always in
bounds, and the scan always terminates. -/
theorem C9_loads_partial_json_total (s : List Char) (et : Option PyType) :
    ∃ results malformed, loads_partial_json s et = Except.ok (results, malformed) := by
  obtain ⟨⟨r, m⟩, hp⟩ := loadsLoopE_ok s et (s.length + 1) 0 [] false (by omega)
  exact ⟨r, m, hp⟩

/-- C10: whatever `loads_partial_json` decodes from a script's stdout, the
result built by `create_test_script_result` keeps all decoded JSON objects
(and only objects) in `tests`; when the stdout was flagged, `malformed`
holds the entire raw stdout, and when it was not flagged, `malformed` is
`None`. -/
theorem C10_create_result_malformed_fields (file_name stdout stderr : List Char)
    (run_time : Nat) (timeout : Option Nat) (res : List JVal) (mal : Bool)
    (h : loads_partial_json stdout (some PyType.dict) = Except.ok (res, mal)) :
    ∃ r, create_test_script_result file_name stdout stderr run_time timeout
        = Except.ok r
      ∧ r.tests = res
      ∧ r.malformed = (if mal then some stdout else none)
      ∧ (mal = false → r.malformed = none)
      ∧ (∀ x ∈ r.tests, isinstance x PyType.dict = true) := by
  have h2 : loadsLoopE stdout (some PyType.dict) (stdout.length + 1) 0 [] false
      = Except.ok (res, mal) := h
  unfold create_test_script_result
  rw [h]
  refine ⟨_, rfl, rfl, rfl, ?_, ?_⟩
  · intro hm
    simp [hm]
  · intro x hx
    exact loadsLoopE_types stdout PyType.dict (stdout.length + 1) 0 [] false res mal
      (by simp) h2 x hx

/-- Witness for C10: stdout holding logging noise followed by one empty
JSON object decodes to that object with the malformed flag set, and the
built result stores the entire raw stdout under `malformed`. -/
theorem C10_create_result_malformed_fields_witness :
    ∃ r, create_test_script_result ['f'] ['x', ' ', lbrace, rbrace] [] 0 none
        = Except.ok r
      ∧ r.tests = [JVal.obj []]
      ∧ r.malformed = (if true then some ['x', ' ', lbrace, rbrace] else none)
      ∧ (true = false → r.malformed = none)
      ∧ (∀ x ∈ r.tests, isinstance x PyType.dict = true) :=
  C10_create_result_malformed_fields ['f'] ['x', ' ', lbrace, rbrace] [] 0 none
    [JVal.obj []] true rfl

end Autotest
